import Mathlib

/-!
Shallow embedding of `support-lib/wasm/Future_wasm.hpp` (djinni's
wasm future bridge): the `FutureAdaptor<RESULT>` template bridging a
native `Future<T>`/`Promise<T>` pair and a JS promise, plus the
`ExceptionHandlingTraits<FutureAdaptor<U>>` specialization.

The embedding makes the observable effects of each bridge explicit:
invocations of the stored JS resolve/reject callables (with the thread
they run on), invocations of the boxing collaborator, and
allocation/free counts of the heap objects (`CppResolveHandler`,
`NativePromise`).
-/

namespace Djinni

/-- JS values (`em::val`) as they occur in this bridge: `undefined`,
`null`, primitives, instances of the global `Error` type (identified by
an id), and the error object produced by `djinni_native_exception_to_js`
(carrying the native exception's message). -/
inductive JsVal : Type where
  | undefined : JsVal
  | null : JsVal
  | num : Int → JsVal
  | str : String → JsVal
  | errorObj : Nat → JsVal
  | fromNativeExc : String → JsVal
  deriving DecidableEq, Repr

/-- Native exceptions deriving `std::exception`, the only exceptions this
file constructs: `JsException` (carries the JS error value it wraps) and
plain `std::exception` subclasses such as `std::runtime_error` (carry a
message). -/
inductive CppExc : Type where
  | jsExc : JsVal → CppExc
  | stdExc : String → CppExc
  deriving DecidableEq, Repr

/-- `what()` of the exception: the message for a `std::runtime_error`,
the wrapped error's description for a `JsException`. -/
def CppExc.what : CppExc → String
  | .jsExc _ => "JsException"
  | .stdExc m => m

/-- Modelled from the spec: `djinni_native_exception_to_js` lives in
`djinni_wasm.hpp`, which is not under `src/`; the spec describes it as
the collaborator that converts "the native exception ... into a
host-runtime error object". We model it as building a host error object
from the exception's message. -/
def djinni_native_exception_to_js (e : CppExc) : JsVal :=
  JsVal.fromNativeExc e.what

/-- The `RESULT` template parameter of `FutureAdaptor`: either the void
marshaller (`CppType = void`) or a typed marshaller providing
`RESULT::Boxed::fromCpp` and `RESULT::Boxed::toCpp`. -/
inductive ResultSpec : Type 1 where
  | void : ResultSpec
  | typed : (α : Type) → (α → JsVal) → (JsVal → α) → ResultSpec

/-- `CppResType = typename RESULT::CppType` (with `void` rendered as
`Unit` so completed futures can be stated uniformly). -/
abbrev ResultSpec.CppResType : ResultSpec → Type
  | .void => Unit
  | .typed α _ _ => α

/-- The content of a completed `Future<α>`: a value or a terminal
exception. -/
inductive FutureContent (α : Type) : Type where
  | value : α → FutureContent α
  | exception : CppExc → FutureContent α

/-- An invocation of one of the two callables the JS promise builder
stored into the `CppResolveHandler`: `_resolveFunc(v)` or
`_rejectFunc(v)`. -/
inductive HostCall : Type where
  | resolveCall : JsVal → HostCall
  | rejectCall : JsVal → HostCall
  deriving DecidableEq, Repr

/-- A host-callable invocation together with the thread it executed
on. -/
structure HostCallEv : Type where
  call : HostCall
  thread : Nat
  deriving DecidableEq, Repr

/-- Observable state of one Native→Host bridge instance: the
chronological invocations of the stored resolve/reject callables, the
number of `RESULT::Boxed::fromCpp` invocations, and alloc/free counts of
the `CppResolveHandler` heap object. -/
structure N2HWorld : Type where
  hostCalls : List HostCallEv
  boxCalls : Nat
  handlerAlloc : Nat
  handlerFreed : Nat
  deriving DecidableEq, Repr

/-- The state before a bridge instance is created. -/
def N2HWorld.init : N2HWorld := ⟨[], 0, 0, 0⟩

/-- Settlement state of the JS promise behind the stored callables: the
first invocation wins (a JS promise ignores later resolve/reject
calls). -/
inductive Settlement : Type where
  | pending : Settlement
  | fulfilled : JsVal → Settlement
  | rejected : JsVal → Settlement
  deriving DecidableEq, Repr

/-- The settlement determined by a chronological list of callable
invocations. -/
def settlementOf : List HostCallEv → Settlement
  | [] => .pending
  | ev :: _ =>
    match ev.call with
    | .resolveCall v => .fulfilled v
    | .rejectCall v => .rejected v

/-- Settlement of the bridge's JS promise in a given world. -/
def N2HWorld.settlement (w : N2HWorld) : Settlement :=
  settlementOf w.hostCalls

/-- `CppResolveHandler::doResolve`, running on thread `t` with the
completed future stored in `_future`:

```
try {
    if constexpr (std::is_void_v<typename RESULT::CppType>) {
        _resolveFunc(em::val::undefined());
    } else {
        _resolveFunc(RESULT::Boxed::fromCpp(_future->get()));
    }
} catch (const std::exception& e) {
    _rejectFunc(djinni_native_exception_to_js(e));
}
```

Note that in the void branch `_future->get()` is never called, so the
future's content is not inspected there. In the typed branch `get()`
rethrows a stored exception before `fromCpp` is reached, and the catch
turns it into a `_rejectFunc` invocation. -/
def doResolve : (R : ResultSpec) → FutureContent R.CppResType → Nat → N2HWorld → N2HWorld
  | .void, _fut, t, w =>
      { w with hostCalls := w.hostCalls ++ [⟨.resolveCall .undefined, t⟩] }
  | .typed _ box _, .value v, t, w =>
      { w with
          hostCalls := w.hostCalls ++ [⟨.resolveCall (box v), t⟩],
          boxCalls := w.boxCalls + 1 }
  | .typed _ _ _, .exception e, t, w =>
      { w with hostCalls := w.hostCalls ++ [⟨.rejectCall (djinni_native_exception_to_js e), t⟩] }

/-- `CppResolveHandler::trampoline`: runs `doResolve` on thread `t` and
then `delete pthis` (frees the handler). -/
def trampoline (R : ResultSpec) (fut : FutureContent R.CppResType) (t : Nat)
    (w : N2HWorld) : N2HWorld :=
  let w' := doResolve R fut t w
  { w' with handlerFreed := w'.handlerFreed + 1 }

/-- Build mode: `threaded` is the `__EMSCRIPTEN_PTHREADS__` build where
`resolve` dispatches the trampoline to the main runtime thread
asynchronously; `singleThread` is the build where `trampoline(this)` is
called inline (and only one thread, the main one, exists). -/
inductive Build : Type where
  | threaded : Build
  | singleThread : Build
  deriving DecidableEq, Repr

/-- The host runtime's designated (main) thread. -/
def mainThread : Nat := 0

/-- A task queued to the main runtime thread: the trampoline carrying
the handler whose `_future` holds `fut`. Modelled from the spec:
`emscripten_async_run_in_main_runtime_thread` is external; the spec says
the design "posts such work ... to that thread". -/
inductive Task (R : ResultSpec) : Type where
  | tramp : FutureContent R.CppResType → Task R

/-- Running a queued task executes the trampoline on the main thread. -/
def runTask (R : ResultSpec) : Task R → N2HWorld → N2HWorld
  | .tramp fut, w => trampoline R fut mainThread w

/-- Drain the main-thread task queue. -/
def flushTasks (R : ResultSpec) (ts : List (Task R)) (w : N2HWorld) : N2HWorld :=
  ts.foldl (fun w t => runTask R t w) w

/-- `CppResolveHandler::resolve(future)`, invoked on thread `t` by the
native future's continuation: stores the future, then either posts the
trampoline to the main runtime thread (threaded build) or calls
`trampoline(this)` inline (single-threaded build). Returns the world at
the moment `resolve` returns together with the tasks it queued. -/
def handlerResolve (b : Build) (R : ResultSpec) (fut : FutureContent R.CppResType)
    (t : Nat) (w : N2HWorld) : N2HWorld × List (Task R) :=
  match b with
  | .threaded => (w, [Task.tramp fut])
  | .singleThread => (trampoline R fut t w, [])

/-- `FutureAdaptor::fromCpp(c)`, called on thread `t0`: allocates a
`CppResolveHandler`, constructs the JS promise builder (whose
constructor synchronously calls `init`, storing the resolve/reject
callables), attaches a continuation with `c.then(...)`, and returns the
builder's promise. `c` is the future's completion state at the moment
the continuation is attached: `none` means still pending (the
continuation fires later via `handlerResolve`); `some fut` means already
complete, in which case `then` runs the continuation inline (modelled
from the spec: `Future::then` lives in `Future.hpp`, not under `src/`;
the spec's pending edge case says settlement waits only "if the future
is still pending"). Returns the world at the moment `fromCpp` returns,
with the tasks queued to the main thread. -/
def fromCpp (b : Build) (R : ResultSpec) (t0 : Nat)
    (c : Option (FutureContent R.CppResType)) (w : N2HWorld) : N2HWorld × List (Task R) :=
  let w1 := { w with handlerAlloc := w.handlerAlloc + 1 }
  match c with
  | none => (w1, [])
  | some fut => handlerResolve b R fut t0 w1

/-- Completion of a future that was still pending when `fromCpp`
attached its continuation: the continuation fires on the completing
thread `tw` and calls `cppResolveHandler->resolve(...)` there. -/
def completeFuture (b : Build) (R : ResultSpec) (fut : FutureContent R.CppResType)
    (tw : Nat) (w : N2HWorld) : N2HWorld × List (Task R) :=
  handlerResolve b R fut tw w

/-- Whole pipeline, pre-completed future: `fromCpp` on a future already
holding `fut`, then the main-thread queue drained. -/
def bridgeCompleted (b : Build) (R : ResultSpec) (fut : FutureContent R.CppResType)
    (t0 : Nat) : N2HWorld :=
  let p := fromCpp b R t0 (some fut) N2HWorld.init
  flushTasks R p.2 p.1

/-- Whole pipeline, pending future: `fromCpp` attaches while pending,
the future later completes with `fut` on thread `tw`, then the
main-thread queue is drained. -/
def bridgePending (b : Build) (R : ResultSpec) (fut : FutureContent R.CppResType)
    (t0 tw : Nat) : N2HWorld :=
  let p := fromCpp b R t0 none N2HWorld.init
  let q := completeFuture b R fut tw p.1
  flushTasks R (p.2 ++ q.2) q.1

/-- `ExceptionHandlingTraits<FutureAdaptor<U>>::handleNativeException(e)`:

```
auto r = FutureAdaptor<U>::NativePromiseType::reject(std::current_exception());
return FutureAdaptor<U>::fromCpp(std::move(r));
```

`cur` is the exception currently being handled (what
`std::current_exception()` captures; the function must run inside a
catch block for this to exist). The parameter `e` is received but the
rejected future is built from `cur`, never from `e`. -/
def handleNativeException (R : ResultSpec) (b : Build) (t0 : Nat)
    (e : CppExc) (cur : CppExc) : N2HWorld × List (Task R) :=
  fromCpp b R t0 (some (FutureContent.exception cur)) N2HWorld.init

/-- `handleNativeException` run to quiescence (main-thread queue
drained). -/
def runHandleNativeException (R : ResultSpec) (b : Build) (e cur : CppExc) : N2HWorld :=
  let p := handleNativeException R b mainThread e cur
  flushTasks R p.2 p.1

/-- Completion state of a `Promise<α>` (`NativePromiseType`): unset, or
holding the value passed to `setValue`, or the exception passed to
`setException`. -/
inductive NPState (α : Type) : Type where
  | unset : NPState α
  | hasValue : α → NPState α
  | hasExc : CppExc → NPState α
  deriving Repr

/-- Observable state of one Host→Native bridge instance: the
`NativePromise`'s completion state, alloc/free counts of that heap
object, and the number of `RESULT::Boxed::toCpp` invocations. -/
structure H2NWorld (α : Type) : Type where
  np : NPState α
  npAlloc : Nat
  npFreed : Nat
  unboxCalls : Nat
  deriving Repr

/-- The state before `toCpp` runs. -/
def H2NWorld.init (α : Type) : H2NWorld α := ⟨.unset, 0, 0, 0⟩

/-- Modelled from the spec: `err.instanceof(em::val::global("Error"))` —
the host runtime's instance test against the global `Error` type; the
source notes "instanceof will be false if the error object is null or
undefined". Only `errorObj` values are Error instances. -/
def isInstanceOfError : JsVal → Bool
  | .errorObj _ => true
  | _ => false

/-- `FutureAdaptor::resolveNativePromise(context, res)`: recovers the
`NativePromise` from the context token, then

```
if constexpr (std::is_void_v<CppResType>) {
    pNativePromise->setValue();
} else {
    pNativePromise->setValue(RESULT::Boxed::toCpp(res));
}
delete pNativePromise;
``` -/
def resolveNativePromise : (R : ResultSpec) → JsVal → H2NWorld R.CppResType →
    H2NWorld R.CppResType
  | .void, _res, w =>
      { w with np := .hasValue (), npFreed := w.npFreed + 1 }
  | .typed _ _ unbox, res, w =>
      { w with
          np := .hasValue (unbox res),
          unboxCalls := w.unboxCalls + 1,
          npFreed := w.npFreed + 1 }

/-- `FutureAdaptor::rejectNativePromise(context, err)`: recovers the
`NativePromise` from the context token; if `err` is an instance of the
global `Error` type, `setException(JsException(err))`, otherwise
`setException(std::runtime_error("JS promise rejected with non-error
type"))`; then `delete pNativePromise`. -/
def rejectNativePromise (R : ResultSpec) (err : JsVal) (w : H2NWorld R.CppResType) :
    H2NWorld R.CppResType :=
  let w' :=
    if isInstanceOfError err then
      { w with np := NPState.hasExc (CppExc.jsExc err) }
    else
      { w with np := NPState.hasExc (CppExc.stdExc "JS promise rejected with non-error type") }
  { w' with npFreed := w'.npFreed + 1 }

/-- `FutureAdaptor::toCpp(o)`: allocates a `NativePromiseType` on the
heap, takes its paired future (returned to the caller), and registers
`resolveNativePromise` / `rejectNativePromise` with the host promise via
`then` / `catch`, passing the promise's address as the integer context
token. The registered callbacks are the two functions above; the host
runtime later invokes exactly one of them. -/
def toCpp (R : ResultSpec) (w : H2NWorld R.CppResType) : H2NWorld R.CppResType :=
  { w with npAlloc := w.npAlloc + 1 }

/-- Host→Native pipeline: `toCpp`, then the host promise fulfills with
`v`, firing `resolveNativePromise`. -/
def h2nFulfilled (R : ResultSpec) (v : JsVal) : H2NWorld R.CppResType :=
  resolveNativePromise R v (toCpp R (H2NWorld.init R.CppResType))

/-- Host→Native pipeline: `toCpp`, then the host promise rejects with
`r`, firing `rejectNativePromise`. -/
def h2nRejected (R : ResultSpec) (r : JsVal) : H2NWorld R.CppResType :=
  rejectNativePromise R r (toCpp R (H2NWorld.init R.CppResType))

/-- All host-callable invocations of a Native→Host world ran on the main
runtime thread. -/
def allOnMainThread (w : N2HWorld) : Bool :=
  w.hostCalls.all (fun ev => ev.thread == mainThread)

/-- A concrete non-void result marshaller (ints boxed as JS numbers),
used for closed evaluations. -/
def intResult : ResultSpec :=
  ResultSpec.typed Int (fun n => JsVal.num n) (fun v => match v with | .num n => n | _ => 0)

/-- C2: for every non-void result type and every value `v`, bridging a
native future pre-completed with `v` through `fromCpp` (in either build
mode, from any calling thread) invokes the stored resolve callable
exactly once, with `RESULT::Boxed::fromCpp(v)`, so the host promise is
fulfilled with the boxed value and no other settlement occurs; the
boxing collaborator runs exactly once. -/
theorem C2_fulfilled_with_boxed (b : Build) (α : Type) (box : α → JsVal)
    (unbox : JsVal → α) (v : α) (t0 : Nat) :
    (bridgeCompleted b (.typed α box unbox) (.value v) t0).hostCalls.map HostCallEv.call
        = [HostCall.resolveCall (box v)]
    ∧ (bridgeCompleted b (.typed α box unbox) (.value v) t0).settlement
        = Settlement.fulfilled (box v)
    ∧ (bridgeCompleted b (.typed α box unbox) (.value v) t0).boxCalls = 1 := by
  cases b <;>
    simp [bridgeCompleted, fromCpp, handlerResolve, flushTasks, runTask, trampoline,
      doResolve, N2HWorld.settlement, settlementOf, N2HWorld.init]

/-- C3: for every rejection value `r` delivered to
`rejectNativePromise`, the native promise is completed with
`JsException(r)` when `r` is an instance of the host `Error` type and
with the generic `std::runtime_error("JS promise rejected with
non-error type")` otherwise; the `NativePromise` is freed afterwards in
both cases; and `null`, `undefined` and plain numbers are not `Error`
instances while every `Error` object is. -/
theorem C3_reject_error_vs_nonerror (R : ResultSpec) (r : JsVal) :
    (h2nRejected R r).np
      = (if isInstanceOfError r then NPState.hasExc (CppExc.jsExc r)
         else NPState.hasExc (CppExc.stdExc "JS promise rejected with non-error type"))
    ∧ (h2nRejected R r).npFreed = 1
    ∧ isInstanceOfError JsVal.null = false
    ∧ isInstanceOfError JsVal.undefined = false
    ∧ (∀ n : Int, isInstanceOfError (JsVal.num n) = false)
    ∧ (∀ i : Nat, isInstanceOfError (JsVal.errorObj i) = true) := by
  refine ⟨?_, ?_, rfl, rfl, fun _ => rfl, fun _ => rfl⟩ <;>
    by_cases h : isInstanceOfError r <;>
      simp [h2nRejected, rejectNativePromise, toCpp, H2NWorld.init, h]

/-- C4: for every non-void result type and every fulfilled host value
`v`, `resolveNativePromise` converts `v` with `RESULT::Boxed::toCpp`
exactly once, completes the `NativePromise` with the converted value,
and frees the `NativePromise`. -/
theorem C4_resolve_converts_once_and_frees (α : Type) (box : α → JsVal)
    (unbox : JsVal → α) (v : JsVal) :
    (h2nFulfilled (.typed α box unbox) v).np = NPState.hasValue (unbox v)
    ∧ (h2nFulfilled (.typed α box unbox) v).unboxCalls = 1
    ∧ (h2nFulfilled (.typed α box unbox) v).npFreed = 1 := by
  simp [h2nFulfilled, resolveNativePromise, toCpp, H2NWorld.init]

/-- C5: for the void result type the boxing collaborator is never
invoked in either direction: bridging a successfully completed void
future resolves the host promise with `undefined` (and performs zero
`fromCpp` boxing calls), and `resolveNativePromise` calls `setValue`
with no argument (zero `toCpp` calls). -/
theorem C5_void_skips_boxing (b : Build) (t0 : Nat) (res : JsVal) :
    (bridgeCompleted b .void (.value ()) t0).hostCalls.map HostCallEv.call
        = [HostCall.resolveCall JsVal.undefined]
    ∧ (bridgeCompleted b .void (.value ()) t0).boxCalls = 0
    ∧ (h2nFulfilled .void res).np = NPState.hasValue ()
    ∧ (h2nFulfilled .void res).unboxCalls = 0 := by
  cases b <;>
    simp [bridgeCompleted, fromCpp, handlerResolve, flushTasks, runTask, trampoline,
      doResolve, N2HWorld.init, h2nFulfilled, resolveNativePromise, toCpp, H2NWorld.init]

/-- C6: for every bridge instance driven to exactly one settlement, each
heap object is freed exactly once: the `CppResolveHandler` allocated by
`fromCpp` (for every result type, build mode and future outcome,
including the exception outcomes) and the `NativePromise` allocated by
`toCpp` (on the success path and on both rejection paths). -/
theorem C6_exactly_once_free (b : Build) (R : ResultSpec)
    (fut : FutureContent R.CppResType) (t0 : Nat) (v r : JsVal) :
    (bridgeCompleted b R fut t0).handlerAlloc = 1
    ∧ (bridgeCompleted b R fut t0).handlerFreed = 1
    ∧ (h2nFulfilled R v).npAlloc = 1
    ∧ (h2nFulfilled R v).npFreed = 1
    ∧ (h2nRejected R r).npAlloc = 1
    ∧ (h2nRejected R r).npFreed = 1 := by
  refine ⟨?_, ?_, ?_, ?_, ?_, ?_⟩ <;>
    cases R <;> cases b <;>
      first
      | (cases fut <;>
          simp [bridgeCompleted, fromCpp, handlerResolve, flushTasks, runTask, trampoline,
            doResolve, N2HWorld.init])
      | (by_cases h : isInstanceOfError r <;>
          simp [h2nFulfilled, h2nRejected, resolveNativePromise, rejectNativePromise,
            toCpp, H2NWorld.init, h])

/-- C1 (evaluation of the code at the failing input): for the void
result type, a native future completed with any exception `e` — in
particular the already-rejected future built by `handleNativeException`
— produces, in either build mode, exactly one invocation of the stored
callables, and it is a resolve with `undefined`: the host promise is
FULFILLED, the reject callable is never invoked, and the exception is
silently dropped (the void branch of `doResolve` never calls
`_future->get()`). -/
theorem C1_void_exception_fulfills (b : Build) (e : CppExc) :
    (runHandleNativeException .void b e e).hostCalls.map HostCallEv.call
        = [HostCall.resolveCall JsVal.undefined]
    ∧ (runHandleNativeException .void b e e).settlement
        = Settlement.fulfilled JsVal.undefined := by
  cases b <;>
    simp [runHandleNativeException, handleNativeException, fromCpp, handlerResolve,
      flushTasks, runTask, trampoline, doResolve, N2HWorld.settlement, settlementOf,
      N2HWorld.init]

/-- C7 (evaluation of the code at the failing input): when the bridged
future of a void result type carries a terminal exception `e`,
`doResolve` does not convert it into a host rejection: it invokes the
resolve callable with `undefined` (the exception is never extracted,
since the void branch skips `_future->get()`), so the reject callable
never runs. -/
theorem C7_void_exception_not_rejected (e : CppExc) (t : Nat) :
    (doResolve .void (.exception e) t N2HWorld.init).hostCalls
      = [⟨HostCall.resolveCall JsVal.undefined, t⟩] := by
  simp [doResolve, N2HWorld.init]

/-- C8 counterexample: in the single-threaded build, feeding `fromCpp` a
future already completed with the value `7` settles the returned promise
before `fromCpp` returns — at the moment `fromCpp` returns, the promise
is already fulfilled, refuting "no resolve or reject of that promise has
occurred at the moment fromCpp returns, for every input future (pending
or already complete)". -/
theorem C8_settled_at_return_cex :
    (fromCpp .singleThread intResult mainThread
        (some (FutureContent.value (7 : Int))) N2HWorld.init).1.settlement
      = Settlement.fulfilled (JsVal.num 7) := by
  simp [fromCpp, handlerResolve, trampoline, doResolve, intResult, N2HWorld.settlement,
    settlementOf, N2HWorld.init]

/-- C8 amended: `fromCpp` returns the builder's promise unsettled in the
threaded build for every input future (the trampoline is dispatched
asynchronously to the main thread), and in the single-threaded build
whenever the input future is still pending when the continuation is
attached; only a single-threaded-build call on an already-complete
future settles the promise before returning. -/
theorem C8_unsettled_at_return (R : ResultSpec) (t0 : Nat)
    (c : Option (FutureContent R.CppResType)) :
    (fromCpp .threaded R t0 c N2HWorld.init).1.settlement = Settlement.pending
    ∧ (fromCpp .singleThread R t0 none N2HWorld.init).1.settlement = Settlement.pending := by
  cases c <;>
    simp [fromCpp, handlerResolve, N2HWorld.settlement, settlementOf, N2HWorld.init]

/-- C9: every invocation of the stored resolve/reject callables runs on
the host runtime's main thread: in the threaded build the trampoline is
posted to the main thread regardless of which thread `tw` detected the
future's completion; in the single-threaded build the trampoline runs
inline, but there the only existing thread is the main thread. -/
theorem C9_host_calls_on_main_thread (b : Build) (R : ResultSpec)
    (fut : FutureContent R.CppResType) (t0 tw : Nat)
    (hsingle : b = Build.singleThread → tw = mainThread) :
    allOnMainThread (bridgePending b R fut t0 tw) = true := by
  cases b with
  | threaded =>
      cases R <;> cases fut <;>
        simp [allOnMainThread, bridgePending, fromCpp, completeFuture, handlerResolve,
          flushTasks, runTask, trampoline, doResolve, N2HWorld.init]
  | singleThread =>
      have htw := hsingle rfl
      subst htw
      cases R <;> cases fut <;>
        simp [allOnMainThread, bridgePending, fromCpp, completeFuture, handlerResolve,
          flushTasks, runTask, trampoline, doResolve, N2HWorld.init]

/-- C9 witness: concrete instantiation of `C9_host_calls_on_main_thread`
in the threaded build with completion detected on worker thread 5. -/
theorem C9_host_calls_on_main_thread_witness :
    allOnMainThread (bridgePending .threaded .void (.value ()) 3 5) = true :=
  C9_host_calls_on_main_thread .threaded .void (.value ()) 3 5
    (fun h => Build.noConfusion h)

/-- C10: `handleNativeException` builds the rejected native future from
`std::current_exception()` — the exception `cur` in flight at the call —
and never from its `std::exception` argument: the result equals feeding
`fromCpp` a future rejected with `cur`, and is unchanged when the
argument is replaced by any other exception; for a non-void result type
the bridged promise is then rejected with the conversion of `cur`. -/
theorem C10_rejects_with_current_exception (R : ResultSpec) (b : Build) (t0 : Nat)
    (e eOther cur : CppExc) :
    handleNativeException R b t0 e cur
      = fromCpp b R t0 (some (FutureContent.exception cur)) N2HWorld.init
    ∧ handleNativeException R b t0 e cur = handleNativeException R b t0 eOther cur
    ∧ (runHandleNativeException intResult b e cur).settlement
        = Settlement.rejected (djinni_native_exception_to_js cur) := by
  refine ⟨rfl, rfl, ?_⟩
  cases b <;>
    simp [runHandleNativeException, handleNativeException, fromCpp, handlerResolve,
      flushTasks, runTask, trampoline, doResolve, intResult, N2HWorld.settlement,
      settlementOf, N2HWorld.init]

end Djinni
